import Mathlib

/-!
Shallow embedding of the plex-postgresql interposing shim.

The definitions below are translated from the C sources under `src/src/`:
`db_interpose_pg_linux.c` (statement lifecycle: prepare / bind / step /
reset / clear_bindings, skip-pattern classifier, column-type switch,
text-to-scalar conversion helpers), `db_interpose_column.c` (column and
value accessors, bytea hex decoding, text-buffer ring) and
`sql_tr_upsert.c` (INSERT OR REPLACE rewriting).

SQL text and PostgreSQL text-format values are modelled as `List Char`.
Machine integers are modelled as `Int`/`Nat` (no claim under scrutiny
exercises integer overflow, and C's `atoi` has undefined behaviour on
overflow anyway).  Doubles are modelled over `ℚ`: the only double values
the claims mention (0.0 and 1.0) are exactly representable, so rounding
is irrelevant.  Calls into libpq (`PQgetvalue`, `PQgetisnull`,
`PQgetlength`, `PQftype`, `PQntuples`, `PQnfields`) are modelled as pure
lookups into an explicit result-set value, and `PQexecParams` outcomes are
injected as an explicit `RemoteResp` argument to `step`.
-/

namespace PlexPg

abbrev Str := List Char

/-- C return codes used by the shim (sqlite3.h values). -/
def SQLITE_OK : Int := 0
def SQLITE_ERROR : Int := 1
def SQLITE_NOMEM : Int := 7
def SQLITE_MISUSE : Int := 21
def SQLITE_RANGE : Int := 25
def SQLITE_ROW : Int := 100
def SQLITE_DONE : Int := 101

/-- SQLite fundamental type codes (sqlite3.h). -/
def SQLITE_INTEGER : Int := 1
def SQLITE_FLOAT : Int := 2
def SQLITE_TEXT : Int := 3
def SQLITE_BLOB : Int := 4
def SQLITE_NULL : Int := 5

/-! ## C character / string primitives

ASCII models of `tolower`, `isspace`, `isdigit`, `strcasecmp`,
`strncasecmp` and `strcasestr` as used by the shim (all inputs are
ASCII SQL text). -/

def toLowerCh (c : Char) : Char :=
  if 'A' ≤ c ∧ c ≤ 'Z' then Char.ofNat (c.toNat + 32) else c

def isSpaceCh (c : Char) : Bool :=
  c = ' ' ∨ c = '\t' ∨ c = '\n' ∨ c = '\x0b' ∨ c = '\x0c' ∨ c = '\r'

def isDigitCh (c : Char) : Bool := '0' ≤ c ∧ c ≤ '9'

/-- Case-insensitive equality of two strings (`strcasecmp(a,b) == 0`). -/
def lowerEq (a b : Str) : Bool :=
  a.map toLowerCh == b.map toLowerCh

/-- `strncasecmp(s, pat, strlen(pat)) == 0`: `s` starts with `pat`,
case-insensitively. -/
def startsWithCI : Str → Str → Bool
  | _, [] => true
  | [], _ :: _ => false
  | c :: s, p :: ps => toLowerCh c == toLowerCh p && startsWithCI s ps

/-- `strcasestr(s, pat)`: the suffix of `s` beginning at the first
case-insensitive occurrence of `pat`, or `none`.  For an empty `pat`,
`strcasestr` returns the haystack itself. -/
def findCI (pat : Str) : Str → Option Str
  | [] => if startsWithCI [] pat then some [] else none
  | c :: s => if startsWithCI (c :: s) pat then some (c :: s) else findCI pat s

/-- `strcasestr(s, pat) != NULL`. -/
def containsCI (s pat : Str) : Bool := (findCI pat s).isSome

/-- Digit-accumulation loop shared by the `atoi`/`atoll` model: consume
leading decimal digits, stop at the first non-digit. -/
def parseDigits : Str → Nat → Nat
  | [], acc => acc
  | c :: s, acc =>
    if isDigitCh c then parseDigits s (acc * 10 + (c.toNat - 48)) else acc

/-- C `atoi`/`atoll`: skip whitespace, optional sign, leading digits.
Modelled without width truncation (overflow is UB in C and out of scope
for every claim). -/
def atoiC (s : Str) : Int :=
  let s1 := s.dropWhile (fun c => isSpaceCh c)
  match s1 with
  | '-' :: rest => -(parseDigits rest 0 : Int)
  | '+' :: rest => (parseDigits rest 0 : Int)
  | _ => (parseDigits s1 0 : Int)

/-- C `atof` on the decimal fragment the shim's values use (sign, integer
part, optional fraction), over `ℚ`.  The claims about the double getters
only involve the exactly-representable values 0.0 and 1.0, plus the fact
that other text falls back to this numeric parse. -/
def atofC (s : Str) : ℚ :=
  let s1 := s.dropWhile (fun c => isSpaceCh c)
  let core : Str → ℚ := fun t =>
    let ip := t.takeWhile (fun c => isDigitCh c)
    let rest := t.dropWhile (fun c => isDigitCh c)
    let intPart : ℚ := (parseDigits ip 0 : ℚ)
    match rest with
    | '.' :: fr =>
      let fd := fr.takeWhile (fun c => isDigitCh c)
      intPart + (parseDigits fd 0 : ℚ) / ((10 : ℚ) ^ fd.length)
    | _ => intPart
  match s1 with
  | '-' :: rest => -(core rest)
  | '+' :: rest => core rest
  | _ => core s1

/-! ## Text-value scalar conversion (db_interpose_pg_linux.c:1601-1631)

`pg_value_to_int`, `pg_value_to_int64`, `pg_value_to_double`: PostgreSQL
text-mode booleans arrive as `t` / `f`; those are mapped to 1/0 before
any numeric parse, everything else goes through `atoi`/`atoll`/`atof`. -/

def pg_value_to_int : Str → Int
  | [] => 0
  | v =>
    if v = ['t'] then 1
    else if v = ['f'] then 0
    else atoiC v

def pg_value_to_int64 : Str → Int
  | [] => 0
  | v =>
    if v = ['t'] then 1
    else if v = ['f'] then 0
    else atoiC v

def pg_value_to_double : Str → ℚ
  | [] => 0
  | v =>
    if v = ['t'] then 1
    else if v = ['f'] then 0
    else atofC v

/-! ## Result sets and libpq lookups

A `PGresult` in text mode is a column-OID vector plus a row-major grid of
nullable text values.  `PQgetvalue` returns the empty string for an SQL
NULL (libpq never returns a null pointer for in-range indices),
`PQgetisnull` reports SQL NULL, `PQgetlength` the stored text length. -/

structure PgRes where
  colOids : List Nat
  rows : List (List (Option Str))
deriving DecidableEq, Repr

def PQntuples (r : PgRes) : Nat := r.rows.length
def PQnfields (r : PgRes) : Nat := r.colOids.length
def PQftype (r : PgRes) (col : Nat) : Nat := r.colOids.getD col 0
def cell (r : PgRes) (row col : Nat) : Option Str :=
  (r.rows.getD row []).getD col none
def PQgetisnull (r : PgRes) (row col : Nat) : Bool := (cell r row col).isNone
def PQgetvalue (r : PgRes) (row col : Nat) : Str := (cell r row col).getD []
def PQgetlength (r : PgRes) (row col : Nat) : Nat := (PQgetvalue r row col).length

/-! ## pg_stmt_t (db_interpose_pg_linux.c:302-317)

The statement record of the Linux shim: translated SQL, the bound
parameter vector (`param_values` / `param_lengths` / `param_formats`,
`MAX_PARAMS` = 64 slots, calloc-zeroed), the in-flight `PGresult` and the
cursor.  `is_pg` is 1 for writes, 2 for reads, 3 for dummy statements. -/

def MAX_PARAMS : Nat := 64

structure BindSlot where
  value : Option Str
  len : Nat
  fmt : Nat
deriving DecidableEq, Repr

def emptySlot : BindSlot := ⟨none, 0, 0⟩
def emptyParams : List BindSlot := List.replicate MAX_PARAMS emptySlot

structure PgStmtL where
  isPg : Nat
  sql : Str
  pgSql : Option Str
  result : Option PgRes
  currentRow : Nat
  numRows : Nat
  numCols : Nat
  params : List BindSlot
  paramCount : Nat
deriving DecidableEq, Repr

/-- A freshly calloc-ed `pg_stmt_t` as built by `sqlite3_prepare_v2`. -/
def freshStmt (isPg : Nat) (sql : Str) (pgSql : Option Str) (pc : Nat) : PgStmtL :=
  ⟨isPg, sql, pgSql, none, 0, 0, 0, emptyParams, pc⟩

/-! ## Bind family (db_interpose_pg_linux.c:1269-1397)

Each bind stores into `param_values[idx-1]` when `idx > 0 && idx <=
MAX_PARAMS` (freeing any previous copy, i.e. overwriting) and bumps
`param_count`; otherwise the parameter vector is left untouched.  The
returned code is `SQLITE_OK` for a PostgreSQL-only statement (`rc =
pg_only ? SQLITE_OK : orig_bind(...)`); these models capture the
PostgreSQL-only mode, where no shadow SQLite statement exists. -/

def storeSlot (st : PgStmtL) (idx : Int) (slot : BindSlot) : PgStmtL :=
  { st with
    params := st.params.set (idx - 1).toNat slot,
    paramCount := max st.paramCount idx.toNat }

def sqlite3_bind_int (st : PgStmtL) (idx : Int) (val : Int) : Int × PgStmtL :=
  if 0 < idx ∧ idx ≤ (MAX_PARAMS : Int) then
    (SQLITE_OK, storeSlot st idx ⟨some (toString val).data, 0, 0⟩)
  else (SQLITE_OK, st)

def sqlite3_bind_int64 (st : PgStmtL) (idx : Int) (val : Int) : Int × PgStmtL :=
  if 0 < idx ∧ idx ≤ (MAX_PARAMS : Int) then
    (SQLITE_OK, storeSlot st idx ⟨some (toString val).data, 0, 0⟩)
  else (SQLITE_OK, st)

/-- `sqlite3_bind_double` renders the double with `snprintf("%.17g")`;
the rendering is passed in as `fmtVal` (double formatting is irrelevant
to every claim, which concern slot selection and overwrite only). -/
def sqlite3_bind_double (st : PgStmtL) (idx : Int) (fmtVal : Str) : Int × PgStmtL :=
  if 0 < idx ∧ idx ≤ (MAX_PARAMS : Int) then
    (SQLITE_OK, storeSlot st idx ⟨some fmtVal, 0, 0⟩)
  else (SQLITE_OK, st)

/-- `val = none` models a NULL `val` pointer (the store is skipped);
`nBytes < 0` means `strdup(val)`, otherwise the first `nBytes` bytes are
copied. -/
def sqlite3_bind_text (st : PgStmtL) (idx : Int) (val : Option Str)
    (nBytes : Int) : Int × PgStmtL :=
  match val with
  | some v =>
    if 0 < idx ∧ idx ≤ (MAX_PARAMS : Int) then
      let stored := if nBytes < 0 then v else v.take nBytes.toNat
      (SQLITE_OK, storeSlot st idx ⟨some stored, 0, 0⟩)
    else (SQLITE_OK, st)
  | none => (SQLITE_OK, st)

def sqlite3_bind_blob (st : PgStmtL) (idx : Int) (val : Option Str)
    (nBytes : Int) : Int × PgStmtL :=
  match val with
  | some v =>
    if 0 < idx ∧ idx ≤ (MAX_PARAMS : Int) ∧ 0 < nBytes then
      (SQLITE_OK, storeSlot st idx ⟨some (v.take nBytes.toNat), nBytes.toNat, 1⟩)
    else (SQLITE_OK, st)
  | none => (SQLITE_OK, st)

def sqlite3_bind_null (st : PgStmtL) (idx : Int) : Int × PgStmtL :=
  if 0 < idx ∧ idx ≤ (MAX_PARAMS : Int) then
    (SQLITE_OK, storeSlot st idx emptySlot)
  else (SQLITE_OK, st)

/-! ## reset / clear_bindings (db_interpose_pg_linux.c:1524-1595)

`sqlite3_reset` frees every `param_values[i]` and zeroes the length and
format vectors (the very same loop `sqlite3_clear_bindings` runs), clears
the in-flight `PGresult` and sets `current_row` to 0. -/

def sqlite3_reset (st : PgStmtL) : Int × PgStmtL :=
  (SQLITE_OK,
   { st with params := emptyParams, result := none, currentRow := 0 })

def sqlite3_clear_bindings (st : PgStmtL) : Int × PgStmtL :=
  (SQLITE_OK, { st with params := emptyParams })

/-! ## step (db_interpose_pg_linux.c:1398-1522)

`PQexecParams` outcomes are injected through `RemoteResp`.  The record
returned exposes, besides the return code and the updated statement,
whether a `ROLLBACK` was issued on the session and whether any remote
command was executed at all.  The model covers the PostgreSQL-only mode
(`pg_only` true for registered statements, `PG_READ_ENABLED` is 0). -/

inductive RemoteResp where
  | tuples (r : PgRes)
  | commandOk
  | error (msg : Str)
deriving DecidableEq, Repr

structure StepEffect where
  rc : Int
  st : PgStmtL
  rollback : Bool
  remoteExec : Bool
deriving DecidableEq, Repr

/-- The `PGresult` kept in `pg_stmt->result` after a `PGRES_COMMAND_OK`
response on the read path (non-null pointer; `num_rows` / `num_cols` are
not updated from it). -/
def commandOkRes : PgRes := ⟨[], []⟩

def sqlite3_step (st : PgStmtL) (resp : RemoteResp) : StepEffect :=
  if st.isPg = 3 then ⟨SQLITE_DONE, st, false, false⟩
  else if st.pgSql.isSome then
    if st.isPg = 2 then
      match st.result with
      | none =>
        match resp with
        | .tuples r =>
          let st' := { st with
            result := some r,
            numRows := PQntuples r,
            numCols := PQnfields r,
            currentRow := 0 }
          ⟨if st'.currentRow < st'.numRows then SQLITE_ROW else SQLITE_DONE,
           st', false, true⟩
        | .commandOk =>
          let st' := { st with result := some commandOkRes }
          ⟨if st'.currentRow < st'.numRows then SQLITE_ROW else SQLITE_DONE,
           st', false, true⟩
        | .error _ =>
          ⟨SQLITE_DONE, { st with result := none }, true, true⟩
      | some _ =>
        let st' := { st with currentRow := st.currentRow + 1 }
        ⟨if st'.currentRow < st'.numRows then SQLITE_ROW else SQLITE_DONE,
         st', false, false⟩
    else if st.isPg = 1 then
      match resp with
      | .error _ => ⟨SQLITE_DONE, st, true, true⟩
      | _ => ⟨SQLITE_DONE, st, false, true⟩
    else ⟨SQLITE_DONE, st, false, false⟩
  else ⟨SQLITE_DONE, st, false, false⟩

/-! ## Skip-pattern classifier (db_interpose_pg_linux.c:747-786) -/

def SQLITE_ONLY_PATTERNS : List Str :=
  [("icu_load_collation").data,
   ("fts3_tokenizer").data,
   ("fts4").data,
   ("fts5").data,
   ("SELECT load_extension").data,
   ("VACUUM").data,
   ("PRAGMA").data,
   ("REINDEX").data,
   ("ANALYZE sqlite_").data,
   ("ATTACH DATABASE").data,
   ("DETACH DATABASE").data,
   ("ROLLBACK").data,
   ("SAVEPOINT").data,
   ("RELEASE SAVEPOINT").data,
   ("CREATE VIRTUAL").data,
   ("spellfix").data,
   ("metadata_item_clusterings GROUP BY").data,
   ("metadata_item_views").data,
   ("grandparents.id").data,
   ("parents.id=metadata_items.parent_id").data]

/-- A statement is SQLite-only when, after skipping leading blanks, any
pattern is a case-insensitive leading match (`strncasecmp`) or occurs
case-insensitively anywhere in the text (`strcasestr`). -/
def is_sqlite_only (sql : Str) : Bool :=
  let s := sql.dropWhile (fun c => c = ' ' ∨ c = '\t' ∨ c = '\n')
  SQLITE_ONLY_PATTERNS.any (fun p => startsWithCI s p || containsCI s p)

/-! ## prepare / exec / step dispatch in PostgreSQL-only mode
(db_interpose_pg_linux.c:1128-1177, 1085-1125, 1398-1522)

For a skip-pattern statement, `sqlite3_prepare_v2` hands back a calloc-ed
dummy handle `without` registering it in `stmt_map`; `sqlite3_step` then
finds no `pg_stmt_t` for it, `is_pg_only_stmt` is therefore 0, and the
call falls through to `orig_sqlite3_step` on the dummy handle instead of
reaching the `if (pg_only) return SQLITE_DONE` line. -/

def is_write_operation (sql : Str) : Bool :=
  let s := sql.dropWhile (fun c => c = ' ' ∨ c = '\t' ∨ c = '\n')
  startsWithCI s ("INSERT").data || startsWithCI s ("UPDATE").data ||
  startsWithCI s ("DELETE").data || startsWithCI s ("REPLACE").data ||
  startsWithCI s ("CREATE").data || startsWithCI s ("DROP").data ||
  startsWithCI s ("ALTER").data

def is_read_operation (sql : Str) : Bool :=
  let s := sql.dropWhile (fun c => c = ' ' ∨ c = '\t' ∨ c = '\n')
  startsWithCI s ("SELECT").data

/-- The handle `sqlite3_prepare_v2` gives back in PostgreSQL-only mode:
either the unregistered dummy (skip patterns) or a registered
`pg_stmt_t`. -/
inductive PreparedHandle where
  | dummySkip
  | registered (ps : PgStmtL)
deriving DecidableEq, Repr

structure PrepEffect where
  rc : Int
  handle : PreparedHandle
  remoteExec : Bool
deriving DecidableEq, Repr

/-- `sqlite3_prepare_v2` in PostgreSQL-only mode; `translated` is the
output of `sql_translate` (`none` when translation failed). -/
def sqlite3_prepare_v2_pgonly (sql : Str) (translated : Option Str) : PrepEffect :=
  if is_sqlite_only sql then ⟨SQLITE_OK, .dummySkip, false⟩
  else
    let isPg := if is_write_operation sql then 1 else 2
    let pc := (sql.filter (fun c => c = '?')).length
    ⟨SQLITE_OK, .registered (freshStmt isPg sql translated pc), false⟩

/-- What `sqlite3_step` does with a prepared handle: a registered dummy
(`is_pg == 3`) or a missing registry entry decides the path before any
result handling.  `stmt_map` lookup fails for the skip-pattern dummy, so
`pg_stmt` is NULL and `is_pg_only_stmt` is 0: the call is delegated to
`orig_sqlite3_step` on the dummy handle. -/
inductive StepDispatch where
  | pgStep (ps : PgStmtL)
  | nativeStep
deriving DecidableEq, Repr

def sqlite3_step_dispatch : PreparedHandle → StepDispatch
  | .dummySkip => .nativeStep
  | .registered ps => .pgStep ps

/-- `sqlite3_exec` in PostgreSQL-only mode on a skip-pattern statement:
`is_sqlite_only(sql)` short-circuits to `SQLITE_OK` with no remote
command (db_interpose_pg_linux.c:1095-1098,1120-1122).  Returns
`(rc, remoteExec)`. -/
def sqlite3_exec_pgonly_skip (sql : Str) : Option (Int × Bool) :=
  if is_sqlite_only sql then some (SQLITE_OK, false) else none

/-! ## Column type switch (db_interpose_pg_linux.c:1635-1666)

A NULL value yields `SQLITE_NULL` regardless of the declared OID;
otherwise the OID is mapped by the `switch`: bool(16), int4(23),
int8(20), int2(21) to INTEGER; float4(700), float8(701), numeric(1700)
to FLOAT; bytea(17) to BLOB; every other OID (including oid = 26) falls
to the `default:` TEXT case. -/

def column_type_switch (oid : Nat) : Int :=
  if oid = 16 ∨ oid = 23 ∨ oid = 20 ∨ oid = 21 then SQLITE_INTEGER
  else if oid = 700 ∨ oid = 701 ∨ oid = 1700 then SQLITE_FLOAT
  else if oid = 17 then SQLITE_BLOB
  else SQLITE_TEXT

def sqlite3_column_type (st : PgStmtL) (idx : Nat) : Int :=
  match st.result with
  | some r =>
    if st.currentRow < st.numRows then
      if PQgetisnull r st.currentRow idx then SQLITE_NULL
      else column_type_switch (PQftype r idx)
    else SQLITE_NULL
  | none => SQLITE_NULL

/-! ## Accessor-layer statement record (db_interpose_column.c)

The accessor functions in `db_interpose_column.c` work on the richer
`pg_stmt_t` of `db_interpose.h` (the header is not under `src/`; the
fields below are exactly the ones the accessor code reads and writes):
the in-flight `PGresult`, the optional query-cache snapshot, the cursor,
and the row-scoped per-column decoded caches (`decoded_blob_row`,
`decoded_blobs`, `decoded_blob_lens` for bytea; `cached_row`,
`cached_text`, `cached_blob`, `cached_blob_len` for raw blobs), each a
`MAX_PARAMS`-slot calloc-zeroed array. -/

structure CachedCell where
  isNull : Bool
  val : Option Str
  len : Nat
deriving DecidableEq, Repr

structure CachedRes where
  numRows : Nat
  numCols : Nat
  colTypes : List Nat
  rows : List (List CachedCell)
deriving DecidableEq, Repr

def cachedCell (cr : CachedRes) (row col : Nat) : CachedCell :=
  (cr.rows.getD row []).getD col ⟨true, none, 0⟩

structure ColStmt where
  isPg : Nat
  result : Option PgRes
  cachedResult : Option CachedRes
  currentRow : Int
  numRows : Nat
  numCols : Nat
  decodedBlobRow : Nat
  decodedBlobs : List (Option (List Nat))
  decodedBlobLens : List Nat
  cachedRow : Nat
  cachedText : List (Option Str)
  cachedBlob : List (Option (List Nat))
  cachedBlobLen : List Nat
deriving DecidableEq, Repr

/-! ## Bytea hex decoding (db_interpose_column.c:18-103)

PostgreSQL text-mode `bytea` is `\x` followed by hex digits.  `hexVal`
is the 256-entry `hex_lut` (255 = invalid, modelled as `none`);
`decodeHexPairs` is the pair-consuming decode loop: `bin_len = hex_len /
2` pairs are decoded, so an unpaired trailing character is never
examined; the first invalid digit inside a pair aborts the whole
decode. -/

def hexVal (c : Char) : Option Nat :=
  if '0' ≤ c ∧ c ≤ '9' then some (c.toNat - 48)
  else if 'A' ≤ c ∧ c ≤ 'F' then some (c.toNat - 55)
  else if 'a' ≤ c ∧ c ≤ 'f' then some (c.toNat - 87)
  else none

def decodeHexPairs : Str → Option (List Nat)
  | c1 :: c2 :: rest =>
    match hexVal c1, hexVal c2, decodeHexPairs rest with
    | some hi, some lo, some bs => some ((hi * 16 + lo) :: bs)
    | _, _, _ => none
  | _ => some []

structure DecodeOut where
  blob : Option (List Nat)
  len : Nat
  st : ColStmt
deriving DecidableEq, Repr

def getDecodedBlob (st : ColStmt) (col : Nat) : Option (List Nat) :=
  st.decodedBlobs.getD col none

/-- The cache flush on row change (db_interpose_column.c:44-53). -/
def clearBlobCache (st : ColStmt) (row : Nat) : ColStmt :=
  { st with
    decodedBlobs := List.replicate MAX_PARAMS none,
    decodedBlobLens := List.replicate MAX_PARAMS 0,
    decodedBlobRow := row }

/-- Storing a freshly decoded blob in its column slot
(db_interpose_column.c:96-98). -/
def storeBlobCache (st : ColStmt) (col : Nat) (bs : List Nat) : ColStmt :=
  { st with
    decodedBlobs := st.decodedBlobs.set col (some bs),
    decodedBlobLens := st.decodedBlobLens.set col bs.length }

/-- `pg_decode_bytea(pg_stmt, row, col, &out_length)`: values not of the
form `\x…` (`hex_str[0] != '\\' || hex_str[1] != 'x'`) are returned raw
with their `PQgetlength`; hex values hit the per-column cache when
`decoded_blob_row == row` and the slot is filled, otherwise the caches
are flushed on row change, the pairs are decoded, and the result is
stored in the cache.  Invalid hex yields a NULL blob and length 0. -/
def pg_decode_bytea (st : ColStmt) (row col : Nat) : DecodeOut :=
  match st.result with
  | none => ⟨none, 0, st⟩
  | some r =>
    let v := PQgetvalue r row col
    match v with
    | c1 :: c2 :: hex =>
      if c1 = '\\' ∧ c2 = 'x' then
        if st.decodedBlobRow = row ∧ (getDecodedBlob st col).isSome then
          ⟨getDecodedBlob st col, st.decodedBlobLens.getD col 0, st⟩
        else
          let st1 := if st.decodedBlobRow ≠ row then clearBlobCache st row else st
          match decodeHexPairs hex with
          | none => ⟨none, 0, st1⟩
          | some bs => ⟨some bs, bs.length, storeBlobCache st1 col bs⟩
      else ⟨some (v.map Char.toNat), PQgetlength r row col, st⟩
    | _ => ⟨some (v.map Char.toNat), PQgetlength r row col, st⟩

/-! ## Column getters (db_interpose_column.c:247-657)

Each getter first consults the query-cache snapshot, then the in-flight
`PGresult`; out-of-range indices return the type-appropriate zero; the
scalar getters translate boolean `t`/`f` before the numeric parse. -/

def colTextToInt (v : Str) : Int :=
  if v = ['t'] then 1 else if v = ['f'] then 0 else atoiC v

def colTextToDouble (v : Str) : ℚ :=
  if v = ['t'] then 1 else if v = ['f'] then 0 else atofC v

def inPgRange (st : ColStmt) (idx : Int) : Prop :=
  0 ≤ idx ∧ idx < (st.numCols : Int) ∧
  0 ≤ st.currentRow ∧ st.currentRow < (st.numRows : Int)

instance (st : ColStmt) (idx : Int) : Decidable (inPgRange st idx) := by
  unfold inPgRange; infer_instance

def inCachedRange (cr : CachedRes) (row idx : Int) : Prop :=
  0 ≤ idx ∧ idx < (cr.numCols : Int) ∧ 0 ≤ row ∧ row < (cr.numRows : Int)

instance (cr : CachedRes) (row idx : Int) : Decidable (inCachedRange cr row idx) := by
  unfold inCachedRange; infer_instance

def my_sqlite3_column_int (st : ColStmt) (idx : Int) : Int :=
  match st.cachedResult with
  | some cr =>
    if inCachedRange cr st.currentRow idx then
      let cc := cachedCell cr st.currentRow.toNat idx.toNat
      match cc.isNull, cc.val with
      | false, some v => colTextToInt v
      | _, _ => 0
    else 0
  | none =>
    match st.result with
    | none => 0
    | some r =>
      if inPgRange st idx then
        if PQgetisnull r st.currentRow.toNat idx.toNat then 0
        else colTextToInt (PQgetvalue r st.currentRow.toNat idx.toNat)
      else 0

def my_sqlite3_column_int64 (st : ColStmt) (idx : Int) : Int :=
  match st.cachedResult with
  | some cr =>
    if inCachedRange cr st.currentRow idx then
      let cc := cachedCell cr st.currentRow.toNat idx.toNat
      match cc.isNull, cc.val with
      | false, some v => colTextToInt v
      | _, _ => 0
    else 0
  | none =>
    match st.result with
    | none => 0
    | some r =>
      if inPgRange st idx then
        if PQgetisnull r st.currentRow.toNat idx.toNat then 0
        else colTextToInt (PQgetvalue r st.currentRow.toNat idx.toNat)
      else 0

def my_sqlite3_column_double (st : ColStmt) (idx : Int) : ℚ :=
  match st.cachedResult with
  | some cr =>
    if inCachedRange cr st.currentRow idx then
      let cc := cachedCell cr st.currentRow.toNat idx.toNat
      match cc.isNull, cc.val with
      | false, some v => colTextToDouble v
      | _, _ => 0
    else 0
  | none =>
    match st.result with
    | none => 0
    | some r =>
      if inPgRange st idx then
        if PQgetisnull r st.currentRow.toNat idx.toNat then 0
        else colTextToDouble (PQgetvalue r st.currentRow.toNat idx.toNat)
      else 0

/-- `pg_oid_to_sqlite_type` is declared in `db_interpose.h` and called by
`my_sqlite3_column_type`, but its definition is not among the sources
under `src/`.  Modelled from the spec: "int2/int4/int8/bool/oid →
INTEGER; float4/float8/numeric → FLOAT; bytea → BLOB; everything else →
TEXT" — the same OID set the in-source `my_sqlite3_value_type` switch
spells out inline (20, 21, 23, 26, 16 to INTEGER). -/
def pg_oid_to_sqlite_type (oid : Nat) : Int :=
  if oid = 21 ∨ oid = 23 ∨ oid = 20 ∨ oid = 16 ∨ oid = 26 then SQLITE_INTEGER
  else if oid = 700 ∨ oid = 701 ∨ oid = 1700 then SQLITE_FLOAT
  else if oid = 17 then SQLITE_BLOB
  else SQLITE_TEXT

def my_sqlite3_column_type (st : ColStmt) (idx : Int) : Int :=
  match st.cachedResult with
  | some cr =>
    if inCachedRange cr st.currentRow idx then
      if (cachedCell cr st.currentRow.toNat idx.toNat).isNull then SQLITE_NULL
      else pg_oid_to_sqlite_type (cr.colTypes.getD idx.toNat 0)
    else SQLITE_NULL
  | none =>
    match st.result with
    | none => SQLITE_NULL
    | some r =>
      if idx < 0 ∨ (st.numCols : Int) ≤ idx then SQLITE_NULL
      else if st.currentRow < 0 ∨ (st.numRows : Int) ≤ st.currentRow then SQLITE_NULL
      else if PQgetisnull r st.currentRow.toNat idx.toNat then SQLITE_NULL
      else pg_oid_to_sqlite_type (PQftype r idx.toNat)

/-- Output of `my_sqlite3_column_text`: the text content handed to the
host (`none` models the NULL pointer returned for an SQL NULL value), the
ring slot the copy went into (`none` when no buffer was consumed), and
the post-call value of the atomic ring counter `column_text_idx`.  The
ring is the shared `static char column_text_buffers[256][16384]`; a slot
is picked by `atomic_fetch_add(&column_text_idx, 1) & 0xFF`. -/
structure TextOut where
  content : Option Str
  slot : Option Nat
  ring : Nat
deriving DecidableEq, Repr

def my_sqlite3_column_text (st : ColStmt) (ring : Nat) (idx : Int) : TextOut :=
  match st.cachedResult with
  | some cr =>
    let source :=
      if inCachedRange cr st.currentRow idx then
        let cc := cachedCell cr st.currentRow.toNat idx.toNat
        match cc.isNull, cc.val with
        | false, some v => some v
        | _, _ => none
      else none
    match source with
    | none => ⟨none, none, ring⟩
    | some v => ⟨some (v.take 16383), some (ring % 256), ring + 1⟩
  | none =>
    match st.result with
    | none => ⟨some [], some (ring % 256), ring + 1⟩
    | some r =>
      if idx < 0 ∨ (st.numCols : Int) ≤ idx then
        ⟨some [], some (ring % 256), ring + 1⟩
      else if st.currentRow < 0 ∨ (st.numRows : Int) ≤ st.currentRow then
        ⟨some [], some (ring % 256), ring + 1⟩
      else if PQgetisnull r st.currentRow.toNat idx.toNat then
        ⟨none, none, ring⟩
      else
        let v := PQgetvalue r st.currentRow.toNat idx.toNat
        ⟨some (v.take 16383), some (ring % 256), ring + 1⟩

def my_sqlite3_column_blob (st : ColStmt) (idx : Int) :
    Option (List Nat) × ColStmt :=
  match st.cachedResult with
  | some cr =>
    if inCachedRange cr st.currentRow idx then
      let cc := cachedCell cr st.currentRow.toNat idx.toNat
      match cc.isNull, cc.val with
      | false, some v => (some (v.map Char.toNat), st)
      | _, _ => (none, st)
    else (none, st)
  | none =>
    match st.result with
    | none => (none, st)
    | some r =>
      if idx < 0 ∨ (st.numCols : Int) ≤ idx ∨ (MAX_PARAMS : Int) ≤ idx then
        (none, st)
      else if st.currentRow < 0 ∨ (st.numRows : Int) ≤ st.currentRow then
        (none, st)
      else
        let row := st.currentRow.toNat
        let col := idx.toNat
        if PQgetisnull r row col then (none, st)
        else if PQftype r col = 17 then
          let d := pg_decode_bytea st row col
          (d.blob, d.st)
        else
          if st.cachedRow = row ∧ (st.cachedBlob.getD col none).isSome then
            (st.cachedBlob.getD col none, st)
          else
            let st1 :=
              if st.cachedRow ≠ row then
                { st with
                  cachedText := List.replicate MAX_PARAMS none,
                  cachedBlob := List.replicate MAX_PARAMS none,
                  cachedBlobLen := List.replicate MAX_PARAMS 0,
                  cachedRow := row }
              else st
            let blobLen := PQgetlength r row col
            let v := PQgetvalue r row col
            if 0 < blobLen then
              let st2 := { st1 with
                cachedBlob := st1.cachedBlob.set col (some (v.map Char.toNat)),
                cachedBlobLen := st1.cachedBlobLen.set col blobLen }
              (st2.cachedBlob.getD col none, st2)
            else (st1.cachedBlob.getD col none, st1)

def my_sqlite3_column_bytes (st : ColStmt) (idx : Int) : Nat × ColStmt :=
  match st.cachedResult with
  | some cr =>
    if inCachedRange cr st.currentRow idx then
      let cc := cachedCell cr st.currentRow.toNat idx.toNat
      if cc.isNull then (0, st) else (cc.len, st)
    else (0, st)
  | none =>
    match st.result with
    | none => (0, st)
    | some r =>
      if idx < 0 ∨ (st.numCols : Int) ≤ idx then (0, st)
      else if st.currentRow < 0 ∨ (st.numRows : Int) ≤ st.currentRow then (0, st)
      else
        let row := st.currentRow.toNat
        let col := idx.toNat
        if PQgetisnull r row col then (0, st)
        else if PQftype r col = 17 then
          let d := pg_decode_bytea st row col
          (d.len, d.st)
        else (PQgetlength r row col, st)

/-! ## Value-handle getters (db_interpose_column.c:801-990)

A synthetic value handle captures `(pg_stmt, row_idx, col_idx)`.  The
getters re-check `result`, `row_idx < num_rows`, `col_idx < num_cols`,
then read the addressed cell directly from the `PGresult` — `value_bytes`
returns the raw `PQgetlength` and `value_blob` copies the raw text
(truncated to 65535 bytes), with no bytea hex decoding. -/

def value_type_switch (oid : Nat) : Int :=
  if oid = 20 ∨ oid = 21 ∨ oid = 23 ∨ oid = 26 ∨ oid = 16 then SQLITE_INTEGER
  else if oid = 700 ∨ oid = 701 ∨ oid = 1700 then SQLITE_FLOAT
  else if oid = 17 then SQLITE_BLOB
  else SQLITE_TEXT

def valueInRange (st : ColStmt) (row col : Nat) : Prop :=
  st.result.isSome ∧ row < st.numRows ∧ col < st.numCols

instance (st : ColStmt) (row col : Nat) : Decidable (valueInRange st row col) := by
  unfold valueInRange; infer_instance

def my_sqlite3_value_type (st : ColStmt) (row col : Nat) : Int :=
  match st.result with
  | none => SQLITE_NULL
  | some r =>
    if row < st.numRows ∧ col < st.numCols then
      if PQgetisnull r row col then SQLITE_NULL
      else value_type_switch (PQftype r col)
    else SQLITE_NULL

def my_sqlite3_value_int (st : ColStmt) (row col : Nat) : Int :=
  match st.result with
  | none => 0
  | some r =>
    if row < st.numRows ∧ col < st.numCols then
      if PQgetisnull r row col then 0
      else colTextToInt (PQgetvalue r row col)
    else 0

def my_sqlite3_value_int64 (st : ColStmt) (row col : Nat) : Int :=
  match st.result with
  | none => 0
  | some r =>
    if row < st.numRows ∧ col < st.numCols then
      if PQgetisnull r row col then 0
      else colTextToInt (PQgetvalue r row col)
    else 0

def my_sqlite3_value_double (st : ColStmt) (row col : Nat) : ℚ :=
  match st.result with
  | none => 0
  | some r =>
    if row < st.numRows ∧ col < st.numCols then
      if PQgetisnull r row col then 0
      else colTextToDouble (PQgetvalue r row col)
    else 0

def my_sqlite3_value_text (st : ColStmt) (row col : Nat) : Option Str :=
  match st.result with
  | none => none
  | some r =>
    if row < st.numRows ∧ col < st.numCols then
      if PQgetisnull r row col then none
      else some ((PQgetvalue r row col).take 16383)
    else none

def my_sqlite3_value_bytes (st : ColStmt) (row col : Nat) : Nat :=
  match st.result with
  | none => 0
  | some r =>
    if row < st.numRows ∧ col < st.numCols then
      if PQgetisnull r row col then 0
      else PQgetlength r row col
    else 0

def my_sqlite3_value_blob (st : ColStmt) (row col : Nat) : Option (List Nat) :=
  match st.result with
  | none => none
  | some r =>
    if row < st.numRows ∧ col < st.numCols then
      if PQgetisnull r row col then none
      else
        let v := PQgetvalue r row col
        if PQgetlength r row col = 0 then none
        else some ((v.take 65535).map Char.toNat)
    else none

/-! ## Upsert rewriter (sql_tr_upsert.c)

`translate_insert_or_replace` turns `INSERT OR REPLACE INTO T(cols…)
VALUES(…)` into `INSERT INTO … ON CONFLICT (key) DO UPDATE SET …`, with
the conflict target looked up in the static `conflict_targets`
registry. -/

/-- Modelled from the spec: `str_replace_nocase` is declared in
`sql_translator_internal.h` but its definition is not among the sources
under `src/`.  The spec describes the translator passes as plain string
substitution over the full statement, so each case-insensitive
occurrence of `pat` is replaced by `rep` (only one occurrence exists in
every statement this development evaluates it on).  The fuel argument is
the input length; with a non-empty pattern every step consumes at least
one character, so the fuel never runs out before the input does. -/
def str_replace_nocase_go (pat rep : Str) : Nat → Str → Str
  | 0, s => s
  | _ + 1, [] => []
  | n + 1, c :: s =>
    if startsWithCI (c :: s) pat then
      rep ++ str_replace_nocase_go pat rep n ((c :: s).drop pat.length)
    else c :: str_replace_nocase_go pat rep n s

def str_replace_nocase (s pat rep : Str) : Str :=
  if pat = [] then s else str_replace_nocase_go pat rep s.length s

/-- sql_tr_upsert.c:87-107 — the table name is whatever follows the first
case-insensitive `INTO` (after blanks, up to a blank, `(` or `;`). -/
def extract_table_name (sql : Str) : Option Str :=
  match findCI ("INTO").data sql with
  | none => none
  | some suf =>
    let p := (suf.drop 4).dropWhile (fun c => isSpaceCh c)
    some (p.takeWhile (fun c => ¬ isSpaceCh c ∧ c ≠ '(' ∧ c ≠ ';'))

/-- The matching-parenthesis scan of sql_tr_upsert.c:133-140: collect
characters until the depth counter returns to zero (the closing `)` is
excluded); running out of input with the parenthesis still open is the
unbalanced case (NULL). -/
def takeBalanced : Str → Nat → Option Str
  | [], _ => none
  | c :: s, depth =>
    if c = '(' then (takeBalanced s (depth + 1)).map (c :: ·)
    else if c = ')' then
      if depth = 1 then some []
      else (takeBalanced s (depth - 1)).map (c :: ·)
    else (takeBalanced s depth).map (c :: ·)

/-- sql_tr_upsert.c:114-150 — the parenthesised column list after the
table name, or `none` when the statement has no column list. -/
def extract_column_list (sql : Str) : Option Str :=
  match findCI ("INTO").data sql with
  | none => none
  | some suf =>
    let p1 := (suf.drop 4).dropWhile (fun c => isSpaceCh c)
    let p2 := p1.dropWhile (fun c => ¬ isSpaceCh c ∧ c ≠ '(')
    let p3 := p2.dropWhile (fun c => isSpaceCh c)
    match p3 with
    | '(' :: rest => takeBalanced rest 1
    | _ => none

/-- After one column name: skip blanks, one comma, and blanks
(sql_tr_upsert.c:209-215). -/
def skipToNextCol (s : Str) : Str :=
  let t := s.dropWhile (fun c => isSpaceCh c)
  match t with
  | ',' :: u => u.dropWhile (fun c => isSpaceCh c)
  | u => u

/-- The column-name loop of sql_tr_upsert.c:178-215.  The fuel is the
comma count plus one (`idx < count` in C guards the loop, and is what
keeps it finite when the cursor stops advancing). -/
def parseColumnsGo : Nat → Str → List Str
  | 0, _ => []
  | _ + 1, [] => []
  | n + 1, s =>
    let s1 := s.dropWhile (fun c => isSpaceCh c)
    match s1 with
    | '"' :: rest =>
      let name := rest.takeWhile (fun c => c ≠ '"')
      let r1 := rest.dropWhile (fun c => c ≠ '"')
      let r2 := match r1 with
        | '"' :: t => t
        | t => t
      name :: parseColumnsGo n (skipToNextCol r2)
    | _ =>
      let name := s1.takeWhile (fun c => ¬ isSpaceCh c ∧ c ≠ ',' ∧ c ≠ ')')
      let rest := s1.dropWhile (fun c => ¬ isSpaceCh c ∧ c ≠ ',' ∧ c ≠ ')')
      name :: parseColumnsGo n (skipToNextCol rest)

def parse_columns (colList : Str) : List Str :=
  parseColumnsGo ((colList.filter (fun c => c = ',')).length + 1) colList

/-- One row of the static `conflict_targets` registry
(sql_tr_upsert.c:15-59). -/
structure ConflictTarget where
  tableName : Str
  conflictColumns : Str
  updateAllColumns : Bool
deriving DecidableEq, Repr

def conflict_targets : List ConflictTarget :=
  [⟨("metadata_items").data, ("id").data, true⟩,
   ⟨("media_items").data, ("id").data, true⟩,
   ⟨("media_parts").data, ("id").data, true⟩,
   ⟨("media_streams").data, ("id").data, true⟩,
   ⟨("tags").data, ("id").data, true⟩,
   ⟨("taggings").data, ("id").data, true⟩,
   ⟨("statistics_media").data, ("id").data, true⟩,
   ⟨("statistics_bandwidth").data, ("id").data, true⟩,
   ⟨("statistics_resources").data, ("id").data, true⟩,
   ⟨("play_queue_generators").data, ("id").data, true⟩,
   ⟨("play_queue_items").data, ("id").data, true⟩,
   ⟨("play_queues").data, ("id").data, true⟩,
   ⟨("activities").data, ("id").data, true⟩,
   ⟨("accounts").data, ("id").data, true⟩,
   ⟨("devices").data, ("id").data, true⟩,
   ⟨("directories").data, ("id").data, true⟩,
   ⟨("library_sections").data, ("id").data, true⟩,
   ⟨("locations").data, ("id").data, true⟩,
   ⟨("plugins").data, ("id").data, true⟩,
   ⟨("media_grabs").data, ("id").data, true⟩,
   ⟨("metadata_relations").data, ("id").data, true⟩,
   ⟨("versioned_metadata_items").data, ("id").data, true⟩,
   ⟨("external_metadata_sources").data, ("id").data, true⟩,
   ⟨("blobs").data, ("id").data, true⟩,
   ⟨("metadata_item_settings").data, ("account_id, guid").data, false⟩,
   ⟨("locatables").data, ("location_id, locatable_id, locatable_type").data, true⟩,
   ⟨("location_places").data, ("location_id, guid").data, true⟩,
   ⟨("media_stream_settings").data, ("media_stream_id, account_id").data, true⟩,
   ⟨("preferences").data, ("name").data, true⟩]

def default_conflict_target : ConflictTarget := ⟨("*").data, ("id").data, true⟩

/-- sql_tr_upsert.c:65-81 — strip any schema prefix (text up to the
first `.`), look the table up case-insensitively, and assume an `id`
primary key for unknown tables. -/
def find_conflict_target (table : Str) : ConflictTarget :=
  let t := match table.dropWhile (fun c => c ≠ '.') with
    | '.' :: rest => rest
    | _ => table
  match conflict_targets.find? (fun ct => lowerEq t ct.tableName) with
  | some ct => ct
  | none => default_conflict_target

/-- One `SET` assignment (sql_tr_upsert.c:268-280): `updated_at` /
`changed_at` get a `COALESCE(…, now-epoch)` default, `view_count` a
`GREATEST` merge against the stored row, everything else takes the
`EXCLUDED` value. -/
def assignFor (target : ConflictTarget) (col : Str) : Str :=
  if lowerEq col ("updated_at").data ∨ lowerEq col ("changed_at").data then
    col ++ (" = COALESCE(EXCLUDED.").data ++ col
      ++ (", EXTRACT(EPOCH FROM NOW())::bigint)").data
  else if lowerEq col ("view_count").data then
    col ++ (" = GREATEST(EXCLUDED.").data ++ col ++ (", plex.").data
      ++ target.tableName ++ (".").data ++ col ++ (", 0)").data
  else
    col ++ (" = EXCLUDED.").data ++ col

def joinSep (sep : Str) : List Str → Str
  | [] => []
  | [x] => x
  | x :: y :: xs => x ++ sep ++ joinSep sep (y :: xs)

/-- sql_tr_upsert.c:235-296 — emit ` ON CONFLICT (key) DO UPDATE SET …`,
skipping `id` and any column that occurs (case-insensitively, as a
substring) in the conflict-column list, and append ` RETURNING id` when
the conflict-column list contains `id`.  With no column list the clause
cannot be generated (`none`). -/
def generate_on_conflict_clause (target : ConflictTarget) (columns : List Str) :
    Option Str :=
  if columns.length = 0 then none
  else
    let kept := columns.filter (fun col =>
      ¬ (lowerEq col ("id").data) ∧ ¬ (containsCI target.conflictColumns col))
    let assigns := joinSep (", ").data (kept.map (assignFor target))
    some ((" ON CONFLICT (").data ++ target.conflictColumns
      ++ (") DO UPDATE SET ").data ++ assigns
      ++ (if containsCI target.conflictColumns ("id").data
          then (" RETURNING id").data else []))

/-- Trailing blanks and semicolons stripped before the clause is appended
(sql_tr_upsert.c:375-376). -/
def trimEnd (s : Str) : Str :=
  (s.reverse.dropWhile (fun c => isSpaceCh c ∨ c = ';')).reverse

/-- sql_tr_upsert.c:302-400. -/
def translate_insert_or_replace (sql : Str) : Str :=
  if ¬ containsCI sql ("INSERT OR REPLACE").data then sql
  else
    match extract_table_name sql with
    | none => sql
    | some table =>
      let target := find_conflict_target table
      if lowerEq table ("metadata_item_settings").data then
        str_replace_nocase sql ("INSERT OR REPLACE INTO").data ("INSERT INTO").data
      else
        let cols := match extract_column_list sql with
          | some cl => parse_columns cl
          | none => []
        match generate_on_conflict_clause target cols with
        | none =>
          str_replace_nocase sql ("INSERT OR REPLACE INTO").data ("INSERT INTO").data
        | some oc =>
          let step1 :=
            str_replace_nocase sql ("INSERT OR REPLACE INTO").data ("INSERT INTO").data
          trimEnd step1 ++ oc

/-! ## Concrete fixtures used by the theorems below -/

/-- A freshly prepared redirected read statement with one parameter. -/
def c1_prepped : PgStmtL :=
  freshStmt 2 ("SELECT name FROM t WHERE id = ?").data
    (some ("SELECT name FROM t WHERE id = $1").data) 1

/-- The same statement after `sqlite3_bind_int(stmt, 1, 5)`. -/
def c1_bound : PgStmtL := (sqlite3_bind_int c1_prepped 1 5).2

/-- A redirected read statement with no in-flight result (first step will
execute remotely). -/
def c2_read : PgStmtL :=
  freshStmt 2 ("SELECT id FROM metadata_items").data
    (some ("SELECT id FROM metadata_items").data) 0

/-- A redirected write statement. -/
def c2_write : PgStmtL :=
  freshStmt 1 ("DELETE FROM tags").data (some ("DELETE FROM tags").data) 0

def c8_state : PgStmtL :=
  freshStmt 2 ("SELECT name FROM t WHERE id = ?").data
    (some ("SELECT name FROM t WHERE id = $1").data) 1

/-- An in-flight result whose only column has declared OID 26 (`oid`)
with a non-null value. -/
def c7_res : PgRes := ⟨[26], [[some ("10").data]]⟩

def c7_state : PgStmtL :=
  { freshStmt 2 ("SELECT oid FROM pg_class").data
      (some ("SELECT oid FROM pg_class").data) 0 with
    result := some c7_res, numRows := 1, numCols := 1, currentRow := 0 }

/-- Accessor-layer statement with calloc-fresh row-scoped caches. -/
def mkColStmt (res : Option PgRes) (cr : Option CachedRes) (row : Int)
    (nr nc : Nat) : ColStmt :=
  ⟨2, res, cr, row, nr, nc, 0,
   List.replicate MAX_PARAMS none, List.replicate MAX_PARAMS 0,
   0, List.replicate MAX_PARAMS none, List.replicate MAX_PARAMS none,
   List.replicate MAX_PARAMS 0⟩

/-- One boolean column over two rows: `t` then `f` (OID 16). -/
def c4_res : PgRes := ⟨[16], [[some ['t']], [some ['f']]]⟩

def c4_state : ColStmt := mkColStmt (some c4_res) none 0 2 1

def c4_state_f : ColStmt := mkColStmt (some c4_res) none 1 2 1

/-- A bytea column whose text value `\x41Z` has an invalid hex digit in
the unpaired trailing position. -/
def c5_res : PgRes := ⟨[17], [[some ("\\x41Z").data]]⟩

def c5_state : ColStmt := mkColStmt (some c5_res) none 0 1 1

/-- A well-formed bytea value `\x4142` (two decoded bytes). -/
def c5_ok_res : PgRes := ⟨[17], [[some ("\\x4142").data]]⟩

def c5_ok_state : ColStmt := mkColStmt (some c5_ok_res) none 0 1 1

/-- A well-formed two-byte bytea value `\x4142`. -/
def c6_res : PgRes := ⟨[17], [[some ("\\x4142").data]]⟩

def c6_state : ColStmt := mkColStmt (some c6_res) none 0 1 1

/-- A two-column text row: a value and an SQL NULL (OID 25). -/
def c10_res : PgRes := ⟨[25, 25], [[some ("hello").data, none]]⟩

def c10_state : ColStmt := mkColStmt (some c10_res) none 0 1 2

/-- A registered dummy statement (`is_pg == 3`), as created when a
"already exists" error is suppressed — the mechanism skip-pattern
dummies would need to reach the DONE path of `sqlite3_step`. -/
def c9_dummy3 : PgStmtL :=
  freshStmt 3 ("CREATE TABLE t(id INTEGER PRIMARY KEY)").data none 0

/-! # Theorems -/

/-- Claim C3: `INSERT OR REPLACE INTO tags(id, tag, tag_type)
VALUES(1,'Action',0);` is rewritten by the upsert translator to exactly
`INSERT INTO tags(id, tag, tag_type) VALUES(1,'Action',0) ON CONFLICT
(id) DO UPDATE SET tag = EXCLUDED.tag, tag_type = EXCLUDED.tag_type
RETURNING id`.  The conflict column `id` is the `tags` entry of the
static `conflict_targets` registry, the conflict column is skipped in
the SET list, and ` RETURNING id` is appended because the
conflict-column list contains `id`. -/
theorem C3_upsert_tags_rewrite :
    find_conflict_target ("tags").data = ⟨("tags").data, ("id").data, true⟩ ∧
    containsCI ("id").data ("id").data = true ∧
    translate_insert_or_replace
        ("INSERT OR REPLACE INTO tags(id, tag, tag_type) VALUES(1,\x27Action\x27,0);").data
      = ("INSERT INTO tags(id, tag, tag_type) VALUES(1,\x27Action\x27,0) ON CONFLICT (id) DO UPDATE SET tag = EXCLUDED.tag, tag_type = EXCLUDED.tag_type RETURNING id").data := by
  decide

/-- Claim C1 (code evaluation at the failing input): after
`sqlite3_bind_int(stmt, 1, 5)` the parameter vector holds `"5"` at slot
1, but `sqlite3_reset` empties the whole parameter vector — the very
state `sqlite3_clear_bindings` produces — so a step after reset without
re-binding does **not** observe the previously bound value.  The spec
(and the Engine-L `sqlite3_reset` contract the shim reproduces) says
bound parameters survive reset until an explicit `clear_bindings`. -/
theorem C1_reset_clears_parameter_vector :
    (c1_bound.params.getD 0 emptySlot).value = some ("5").data ∧
    ((sqlite3_reset c1_bound).2.params.getD 0 emptySlot).value = none ∧
    (sqlite3_reset c1_bound).2.params = (sqlite3_clear_bindings c1_bound).2.params ∧
    (sqlite3_reset c1_bound).2.params = emptyParams ∧
    (sqlite3_reset c1_bound).2.result = none ∧
    (sqlite3_reset c1_bound).2.currentRow = 0 := by
  decide

/-- Claim C2, counterexample: on a remote error during the first step of
a redirected read statement, the shim issues a `ROLLBACK` but returns
`SQLITE_DONE`, not `SQLITE_ERROR`, to the caller (it also records no
error anywhere; the failure is only logged). -/
theorem C2_counterexample :
    (sqlite3_step c2_read (.error ("relation does not exist").data)).rc
        = SQLITE_DONE ∧
    (sqlite3_step c2_read (.error ("relation does not exist").data)).rc
        ≠ SQLITE_ERROR ∧
    (sqlite3_step c2_read (.error ("relation does not exist").data)).rollback
        = true := by
  decide

/-- Claim C2 (amended): when the remote execution performed by `step`
fails, the shim clears the in-flight result (read path), issues a
best-effort `ROLLBACK` on the session, and returns `SQLITE_DONE` — not
`SQLITE_ERROR` — to the caller; no error is recorded on the lease (the
failure is only written to the log). -/
theorem C2_step_remote_error_rolls_back_returns_done
    (st : PgStmtL) (msg : Str) (hsql : st.pgSql.isSome = true) :
    (st.isPg = 2 → st.result = none →
      (sqlite3_step st (.error msg)).rc = SQLITE_DONE ∧
      (sqlite3_step st (.error msg)).rollback = true ∧
      (sqlite3_step st (.error msg)).st.result = none ∧
      (sqlite3_step st (.error msg)).rc ≠ SQLITE_ERROR) ∧
    (st.isPg = 1 →
      (sqlite3_step st (.error msg)).rc = SQLITE_DONE ∧
      (sqlite3_step st (.error msg)).rollback = true ∧
      (sqlite3_step st (.error msg)).rc ≠ SQLITE_ERROR) := by
  constructor
  · intro h2 hres
    have h3 : ¬ st.isPg = 3 := by omega
    simp [sqlite3_step, hsql, h2, h3, hres, SQLITE_DONE, SQLITE_ERROR]
  · intro h1
    have h3 : ¬ st.isPg = 3 := by omega
    have h2 : ¬ st.isPg = 2 := by omega
    simp [sqlite3_step, hsql, h1, h2, h3, SQLITE_DONE, SQLITE_ERROR]

/-- Claim C2, witness for the amended theorem at concrete statements. -/
theorem C2_witness :
    ((sqlite3_step c2_read (.error ("boom").data)).rc = SQLITE_DONE ∧
     (sqlite3_step c2_read (.error ("boom").data)).rollback = true ∧
     (sqlite3_step c2_read (.error ("boom").data)).st.result = none ∧
     (sqlite3_step c2_read (.error ("boom").data)).rc ≠ SQLITE_ERROR) ∧
    ((sqlite3_step c2_write (.error ("boom").data)).rc = SQLITE_DONE ∧
     (sqlite3_step c2_write (.error ("boom").data)).rollback = true ∧
     (sqlite3_step c2_write (.error ("boom").data)).rc ≠ SQLITE_ERROR) :=
  ⟨(C2_step_remote_error_rolls_back_returns_done c2_read ("boom").data
      (by decide)).1 (by decide) (by decide),
   (C2_step_remote_error_rolls_back_returns_done c2_write ("boom").data
      (by decide)).2 (by decide)⟩

/-- Claim C8, counterexample: binding an out-of-range position on a
redirected (PostgreSQL-only) statement returns `SQLITE_OK` and silently
leaves the parameter vector untouched, instead of failing with a misuse
error code. -/
theorem C8_counterexample :
    (sqlite3_bind_int c8_state 0 7).1 = SQLITE_OK ∧
    (sqlite3_bind_int c8_state 0 7).2 = c8_state ∧
    (sqlite3_bind_int c8_state 65 7).1 = SQLITE_OK ∧
    (sqlite3_bind_int c8_state 65 7).2 = c8_state ∧
    SQLITE_OK ≠ SQLITE_MISUSE ∧ SQLITE_OK ≠ SQLITE_RANGE := by
  decide

/-- Claim C8 (amended): re-binding an already-bound position overwrites
the stored value (binding twice at the same position equals binding the
final value once), but an out-of-range position (`i < 1` or `i >
MAX_PARAMS`) is silently ignored: every bind entry point returns
`SQLITE_OK` with the statement unchanged, rather than a misuse error. -/
theorem C8_bind_overwrites_and_ignores_out_of_range
    (st : PgStmtL) (i : Int) (v w : Int) (tv tw : Str) (nb : Int) :
    (sqlite3_bind_int (sqlite3_bind_int st i v).2 i w
        = sqlite3_bind_int st i w) ∧
    (sqlite3_bind_int64 (sqlite3_bind_int64 st i v).2 i w
        = sqlite3_bind_int64 st i w) ∧
    (sqlite3_bind_text (sqlite3_bind_text st i (some tv) (-1)).2 i
        (some tw) (-1) = sqlite3_bind_text st i (some tw) (-1)) ∧
    (i ≤ 0 ∨ (MAX_PARAMS : Int) < i →
      sqlite3_bind_int st i v = (SQLITE_OK, st) ∧
      sqlite3_bind_int64 st i v = (SQLITE_OK, st) ∧
      sqlite3_bind_double st i tv = (SQLITE_OK, st) ∧
      sqlite3_bind_text st i (some tv) nb = (SQLITE_OK, st) ∧
      sqlite3_bind_blob st i (some tv) nb = (SQLITE_OK, st) ∧
      sqlite3_bind_null st i = (SQLITE_OK, st)) := by
  have hmax : max (max st.paramCount i.toNat) i.toNat = max st.paramCount i.toNat := by
    omega
  refine ⟨?_, ?_, ?_, ?_⟩
  · by_cases hc : 0 < i ∧ i ≤ (MAX_PARAMS : Int)
    · simp [sqlite3_bind_int, hc, storeSlot, List.set_set, hmax]
    · simp [sqlite3_bind_int, hc]
  · by_cases hc : 0 < i ∧ i ≤ (MAX_PARAMS : Int)
    · simp [sqlite3_bind_int64, hc, storeSlot, List.set_set, hmax]
    · simp [sqlite3_bind_int64, hc]
  · by_cases hc : 0 < i ∧ i ≤ (MAX_PARAMS : Int)
    · simp [sqlite3_bind_text, hc, storeSlot, List.set_set, hmax]
    · simp [sqlite3_bind_text, hc]
  · intro hout
    have hc : ¬ (0 < i ∧ i ≤ (MAX_PARAMS : Int)) := by
      rcases hout with h | h <;> omega
    have hcb : ¬ (0 < i ∧ i ≤ (MAX_PARAMS : Int) ∧ 0 < nb) := by
      rcases hout with h | h <;> omega
    exact ⟨by simp [sqlite3_bind_int, hc], by simp [sqlite3_bind_int64, hc],
           by simp [sqlite3_bind_double, hc], by simp [sqlite3_bind_text, hc],
           by simp [sqlite3_bind_blob, hcb], by simp [sqlite3_bind_null, hc]⟩

/-- Claim C8, witness for the amended theorem: overwrite at position 1
and silent success at position 65 on a concrete statement. -/
theorem C8_witness :
    (sqlite3_bind_int (sqlite3_bind_int c8_state 1 5).2 1 7
        = sqlite3_bind_int c8_state 1 7) ∧
    sqlite3_bind_null c8_state 65 = (SQLITE_OK, c8_state) :=
  ⟨(C8_bind_overwrites_and_ignores_out_of_range c8_state 1 5 7 [] [] 1).1,
   ((C8_bind_overwrites_and_ignores_out_of_range c8_state 65 5 7 [] [] 1).2.2.2
      (by decide)).2.2.2.2.2⟩

/-- Claim C9 (code evaluation at the failing input): the classifier does
treat every listed pattern as a case-insensitive substring match
anywhere in the text, and skip-pattern statements get `SQLITE_OK` from
`prepare`/`exec` with no remote I/O — but the dummy handle `prepare`
creates for them is never registered in `stmt_map`, so `sqlite3_step`
finds no `pg_stmt_t`, `is_pg_only_stmt` is 0, and the call is delegated
to `orig_sqlite3_step` on the fake handle instead of returning
`SQLITE_DONE` (the path the code's own comment "For PG-only statements
without pg_sql (like PRAGMA), return DONE" intends, and the path a
registered `is_pg == 3` dummy such as `c9_dummy3` does take). -/
theorem C9_skip_pattern_step_falls_through_to_native :
    is_sqlite_only ("PRAGMA journal_mode = WAL;").data = true ∧
    is_sqlite_only ("  ROLLBACK").data = true ∧
    is_sqlite_only ("SELECT note FROM t WHERE note LIKE \x27%rollback%\x27").data
        = true ∧
    is_sqlite_only ("CREATE VIRTUAL TABLE ft USING fts4(content)").data = true ∧
    is_sqlite_only ("DELETE FROM fts4_content").data = true ∧
    is_sqlite_only ("vacuum").data = true ∧
    is_sqlite_only ("SELECT id FROM metadata_items").data = false ∧
    sqlite3_prepare_v2_pgonly ("PRAGMA journal_mode = WAL;").data none
        = ⟨SQLITE_OK, .dummySkip, false⟩ ∧
    sqlite3_exec_pgonly_skip ("PRAGMA journal_mode = WAL;").data
        = some (SQLITE_OK, false) ∧
    sqlite3_step_dispatch .dummySkip = .nativeStep ∧
    (sqlite3_step c9_dummy3 .commandOk).rc = SQLITE_DONE ∧
    (sqlite3_step c9_dummy3 .commandOk).remoteExec = false := by
  decide

/-- Claim C7, counterexample: a non-null column with declared OID 26
(`oid`) is mapped by `sqlite3_column_type` to `SQLITE_TEXT` through the
`default:` case of its switch — not to `SQLITE_INTEGER` as the claim
states. -/
theorem C7_counterexample :
    PQftype c7_res 0 = 26 ∧
    PQgetisnull c7_res 0 0 = false ∧
    sqlite3_column_type c7_state 0 = SQLITE_TEXT ∧
    SQLITE_TEXT ≠ SQLITE_INTEGER := by
  decide

/-- Claim C7 (amended): for a redirected statement with an in-flight
result and an in-range current row, a NULL value yields `SQLITE_NULL`
regardless of the declared OID, and otherwise `sqlite3_column_type`
applies its OID switch: int2(21)/int4(23)/int8(20)/bool(16) map to
INTEGER, float4(700)/float8(701)/numeric(1700) to FLOAT, bytea(17) to
BLOB, and every other OID — including oid(26) — to TEXT.  (Only the
value-handle getter `my_sqlite3_value_type` maps 26 to INTEGER.) -/
theorem C7_column_type_oid_mapping (st : PgStmtL) (r : PgRes) (idx : Nat)
    (hres : st.result = some r) (hrow : st.currentRow < st.numRows) :
    (PQgetisnull r st.currentRow idx = true →
       sqlite3_column_type st idx = SQLITE_NULL) ∧
    (PQgetisnull r st.currentRow idx = false →
       sqlite3_column_type st idx = column_type_switch (PQftype r idx)) ∧
    (∀ oid, oid = 16 ∨ oid = 23 ∨ oid = 20 ∨ oid = 21 →
       column_type_switch oid = SQLITE_INTEGER) ∧
    (∀ oid, oid = 700 ∨ oid = 701 ∨ oid = 1700 →
       column_type_switch oid = SQLITE_FLOAT) ∧
    column_type_switch 17 = SQLITE_BLOB ∧
    column_type_switch 26 = SQLITE_TEXT ∧
    (∀ oid, oid ∉ ([16, 23, 20, 21, 700, 701, 1700, 17] : List Nat) →
       column_type_switch oid = SQLITE_TEXT) ∧
    value_type_switch 26 = SQLITE_INTEGER := by
  refine ⟨?_, ?_, ?_, ?_, by decide, by decide, ?_, by decide⟩
  · intro hnull
    simp [sqlite3_column_type, hres, hrow, hnull]
  · intro hnn
    simp [sqlite3_column_type, hres, hrow, hnn]
  · rintro oid (h | h | h | h) <;> subst h <;> decide
  · rintro oid (h | h | h) <;> subst h <;> decide
  · intro oid h
    simp only [List.mem_cons, List.not_mem_nil, or_false, not_or] at h
    obtain ⟨h1, h2, h3, h4, h5, h6, h7, h8⟩ := h
    simp [column_type_switch, h1, h2, h3, h4, h5, h6, h7, h8]

/-- Claim C7, witness for the amended theorem at the concrete OID-26
statement. -/
theorem C7_witness :
    sqlite3_column_type c7_state 0 = column_type_switch (PQftype c7_res 0) :=
  (C7_column_type_oid_mapping c7_state c7_res 0 (by decide) (by decide)).2.1
    (by decide)

/-- Helper: reading back the slot just written in a `MAX_PARAMS`-sized
cache array. -/
theorem getD_set_self {α} (l : List α) (i : Nat) (a d : α) (h : i < l.length) :
    (l.set i a).getD i d = a := by
  simp [List.getD, List.getElem?_set_self, h]

/-- Helper: a successful pair decode yields exactly `hex_len / 2` bytes
(`bin_len = hex_len / 2` in db_interpose_column.c:35). -/
theorem decodeHexPairs_length : ∀ (h : Str) (bs : List Nat),
    decodeHexPairs h = some bs → bs.length = h.length / 2 := by
  intro h
  induction h using decodeHexPairs.induct with
  | case1 c1 c2 rest hi lo bs0 hrest hc2 hc1 ih =>
    intro bs hd
    simp only [decodeHexPairs, hc1, hc2, hrest] at hd
    injection hd with hd
    subst hd
    have := ih bs0 hrest
    simp only [List.length_cons]
    omega
  | case2 c1 c2 rest x ih =>
    intro bs hd
    rcases h1 : hexVal c1 with _ | hi <;>
      rcases h2 : hexVal c2 with _ | lo <;>
      rcases h3 : decodeHexPairs rest with _ | bs0 <;>
      first
        | exact (x hi lo bs0 h1 h2 h3).elim
        | (simp only [decodeHexPairs, h1, h2, h3] at hd
           exact Option.noConfusion hd)
  | case3 t x =>
    intro bs hd
    rcases t with _ | ⟨a, _ | ⟨b, u⟩⟩
    · simp only [decodeHexPairs] at hd
      injection hd with hd
      subst hd
      norm_num
    · simp only [decodeHexPairs] at hd
      injection hd with hd
      subst hd
      norm_num
    · exact (x a b u rfl).elim

/-- Claim C4: for an in-range non-null column whose text value is exactly
`t`, `column_int`, `column_int64` return 1 and `column_double` returns
1.0; for exactly `f` they return 0 and 0.0; any other text falls back to
the numeric parse (`atoi`/`atoll`/`atof`).  The boolean translation comes
first: `atoi("t")` itself would give 0.  The same `t`/`f` translation is
implemented by `pg_value_to_int`/`_int64`/`_double` in
db_interpose_pg_linux.c. -/
theorem C4_boolean_text_before_numeric_parse
    (st : ColStmt) (idx : Int) (r : PgRes) (v : Str)
    (hres : st.result = some r) (hcache : st.cachedResult = none)
    (hrange : inPgRange st idx)
    (hval : cell r st.currentRow.toNat idx.toNat = some v) :
    (v = ['t'] →
      my_sqlite3_column_int st idx = 1 ∧
      my_sqlite3_column_int64 st idx = 1 ∧
      my_sqlite3_column_double st idx = 1) ∧
    (v = ['f'] →
      my_sqlite3_column_int st idx = 0 ∧
      my_sqlite3_column_int64 st idx = 0 ∧
      my_sqlite3_column_double st idx = 0) ∧
    (v ≠ ['t'] → v ≠ ['f'] →
      my_sqlite3_column_int st idx = atoiC v ∧
      my_sqlite3_column_int64 st idx = atoiC v ∧
      my_sqlite3_column_double st idx = atofC v) ∧
    (pg_value_to_int ['t'] = 1 ∧ pg_value_to_int ['f'] = 0 ∧
     pg_value_to_int64 ['t'] = 1 ∧ pg_value_to_int64 ['f'] = 0 ∧
     pg_value_to_double ['t'] = 1 ∧ pg_value_to_double ['f'] = 0 ∧
     atoiC ['t'] = 0 ∧ atofC ['t'] = 0) := by
  have hnull : PQgetisnull r st.currentRow.toNat idx.toNat = false := by
    simp [PQgetisnull, hval]
  have hv : PQgetvalue r st.currentRow.toNat idx.toNat = v := by
    simp [PQgetvalue, hval]
  have hi : my_sqlite3_column_int st idx = colTextToInt v := by
    simp [my_sqlite3_column_int, hcache, hres, hrange, hnull, hv]
  have hi64 : my_sqlite3_column_int64 st idx = colTextToInt v := by
    simp [my_sqlite3_column_int64, hcache, hres, hrange, hnull, hv]
  have hd : my_sqlite3_column_double st idx = colTextToDouble v := by
    simp [my_sqlite3_column_double, hcache, hres, hrange, hnull, hv]
  refine ⟨?_, ?_, ?_, by decide⟩
  · intro h; subst h
    refine ⟨?_, ?_, ?_⟩ <;> simp [hi, hi64, hd, colTextToInt, colTextToDouble]
  · intro h; subst h
    refine ⟨?_, ?_, ?_⟩ <;> simp [hi, hi64, hd, colTextToInt, colTextToDouble]
  · intro h1 h2
    refine ⟨?_, ?_, ?_⟩ <;>
      simp [hi, hi64, hd, colTextToInt, colTextToDouble, h1, h2]

/-- Claim C4, witness: a boolean column holding `t` (row 0) and `f`
(row 1). -/
theorem C4_witness :
    my_sqlite3_column_int c4_state 0 = 1 ∧
    my_sqlite3_column_int64 c4_state 0 = 1 ∧
    my_sqlite3_column_double c4_state 0 = 1 ∧
    my_sqlite3_column_int c4_state_f 0 = 0 :=
  ⟨((C4_boolean_text_before_numeric_parse c4_state 0 c4_res ['t']
      (by decide) (by decide) (by decide) (by decide)).1 rfl).1,
   ((C4_boolean_text_before_numeric_parse c4_state 0 c4_res ['t']
      (by decide) (by decide) (by decide) (by decide)).1 rfl).2.1,
   ((C4_boolean_text_before_numeric_parse c4_state 0 c4_res ['t']
      (by decide) (by decide) (by decide) (by decide)).1 rfl).2.2,
   ((C4_boolean_text_before_numeric_parse c4_state_f 0 c4_res ['f']
      (by decide) (by decide) (by decide) (by decide)).2.1 rfl).1⟩

/-- Claim C5, counterexample: the bytea value `\x41Z` has the invalid
hex digit `Z` after `\x`, yet the decoder does not return NULL/0 — the
unpaired trailing character is simply never examined (`bin_len = hex_len
/ 2`), so the blob decodes to the single byte 0x41 and `column_bytes`
returns 1. -/
theorem C5_counterexample :
    hexVal ('Z') = none ∧
    (pg_decode_bytea c5_state 0 0).blob = some [65] ∧
    (pg_decode_bytea c5_state 0 0).len = 1 ∧
    (my_sqlite3_column_bytes c5_state 0).1 = 1 := by
  decide

/-- Claim C5 (amended): for a bytea value `\x` followed by hex digits,
the decoder consumes `hex_len / 2` digit pairs; when every examined pair
is valid it yields that many bytes, caches them in the per-column slot
(a second call in the same row returns the cached bytes and leaves the
statement unchanged), and `column_bytes` returns the decoded length;
when a pair contains an invalid digit the blob is NULL and the length 0.
An invalid character in an unpaired trailing position is ignored, not
rejected. -/
theorem C5_bytea_decode_cache_and_bytes
    (st : ColStmt) (r : PgRes) (hex : Str) (col : Nat)
    (hres : st.result = some r) (hcache : st.cachedResult = none)
    (hcol : col < MAX_PARAMS)
    (hblen : st.decodedBlobs.length = MAX_PARAMS)
    (hllen : st.decodedBlobLens.length = MAX_PARAMS)
    (hslot : getDecodedBlob st col = none)
    (hrow0 : 0 ≤ st.currentRow) (hrow1 : st.currentRow < (st.numRows : Int))
    (hcnum : (col : Int) < (st.numCols : Int))
    (hoid : PQftype r col = 17)
    (hval : cell r st.currentRow.toNat col = some ('\\' :: 'x' :: hex)) :
    (∀ bs, decodeHexPairs hex = some bs →
      (pg_decode_bytea st st.currentRow.toNat col).blob = some bs ∧
      (pg_decode_bytea st st.currentRow.toNat col).len = bs.length ∧
      bs.length = hex.length / 2 ∧
      (my_sqlite3_column_bytes st (col : Int)).1 = bs.length ∧
      pg_decode_bytea (pg_decode_bytea st st.currentRow.toNat col).st
          st.currentRow.toNat col
        = ⟨some bs, bs.length, (pg_decode_bytea st st.currentRow.toNat col).st⟩) ∧
    (decodeHexPairs hex = none →
      (pg_decode_bytea st st.currentRow.toNat col).blob = none ∧
      (pg_decode_bytea st st.currentRow.toNat col).len = 0 ∧
      (my_sqlite3_column_bytes st (col : Int)).1 = 0) := by
  have hnull : PQgetisnull r st.currentRow.toNat col = false := by
    simp [PQgetisnull, hval]
  have hv : PQgetvalue r st.currentRow.toNat col = '\\' :: 'x' :: hex := by
    simp [PQgetvalue, hval]
  have hmiss : ¬ (st.decodedBlobRow = st.currentRow.toNat ∧
      (getDecodedBlob st col).isSome) := by
    simp [hslot]
  have hn1 : ¬ ((col : Int) < 0 ∨ (st.numCols : Int) ≤ (col : Int)) := by omega
  have hn2 : ¬ (st.currentRow < 0 ∨ (st.numRows : Int) ≤ st.currentRow) := by
    omega
  have hcn : ((col : Int)).toNat = col := by omega
  have hlb : col < st.decodedBlobs.length := by rw [hblen]; exact hcol
  have hll : col < st.decodedBlobLens.length := by rw [hllen]; exact hcol
  have hdec1 : pg_decode_bytea st st.currentRow.toNat col =
      (let st1 := if st.decodedBlobRow ≠ st.currentRow.toNat
                  then clearBlobCache st st.currentRow.toNat else st
       match decodeHexPairs hex with
       | none => ⟨none, 0, st1⟩
       | some bs => ⟨some bs, bs.length, storeBlobCache st1 col bs⟩) := by
    simp only [pg_decode_bytea, hres, hv]
    rw [if_neg hmiss, if_pos (⟨trivial, trivial⟩ : True ∧ True)]
  have hbytes : my_sqlite3_column_bytes st (col : Int) =
      ((pg_decode_bytea st st.currentRow.toNat col).len,
       (pg_decode_bytea st st.currentRow.toNat col).st) := by
    simp only [my_sqlite3_column_bytes, hcache, hres]
    rw [if_neg hn1, if_neg hn2]
    simp [hnull, hoid, hcn]
  constructor
  · intro bs hd
    refine ⟨by rw [hdec1]; simp [hd], by rw [hdec1]; simp [hd],
            decodeHexPairs_length hex bs hd,
            by rw [hbytes, hdec1]; simp [hd], ?_⟩
    by_cases hbr : st.decodedBlobRow = st.currentRow.toNat
    · have hst1 : pg_decode_bytea st st.currentRow.toNat col
          = ⟨some bs, bs.length, storeBlobCache st col bs⟩ := by
        rw [hdec1]; simp [hd, hbr]
      rw [hst1]
      have hs2 : (st.decodedBlobs.set col (some bs))[col]? = some (some bs) := by
        simp [List.getElem?_set_self, hlb]
      have hl2 : (st.decodedBlobLens.set col bs.length)[col]?
          = some bs.length := by
        simp [List.getElem?_set_self, hll]
      simp [pg_decode_bytea, storeBlobCache, getDecodedBlob, hres, hv, hbr,
            hs2, hl2, List.getD]
    · have hst1 : pg_decode_bytea st st.currentRow.toNat col
          = ⟨some bs, bs.length,
             storeBlobCache (clearBlobCache st st.currentRow.toNat) col bs⟩ := by
        rw [hdec1]; simp [hd, hbr]
      rw [hst1]
      have hs2 : ((List.replicate MAX_PARAMS (none : Option (List Nat))).set col
          (some bs))[col]? = some (some bs) := by
        simp [List.getElem?_set_self, hcol]
      have hl2 : ((List.replicate MAX_PARAMS (0 : Nat)).set col
          bs.length)[col]? = some bs.length := by
        simp [List.getElem?_set_self, hcol]
      simp [pg_decode_bytea, storeBlobCache, clearBlobCache, getDecodedBlob,
            hres, hv, hs2, hl2, List.getD]
  · intro hd
    refine ⟨by rw [hdec1]; simp [hd], by rw [hdec1]; simp [hd],
            by rw [hbytes, hdec1]; simp [hd]⟩

/-- Claim C5, witness: `\x4142` decodes to the two bytes 0x41 0x42 and
`column_bytes` returns 2 (the hex text itself is 6 characters long). -/
theorem C5_witness :
    (pg_decode_bytea c5_ok_state 0 0).blob = some [65, 66] ∧
    (my_sqlite3_column_bytes c5_ok_state 0).1 = 2 ∧
    (PQgetlength c5_ok_res 0 0 = 6) :=
  ⟨((C5_bytea_decode_cache_and_bytes c5_ok_state c5_ok_res ("4142").data 0
      (by decide) (by decide) (by decide) (by decide) (by decide) (by decide)
      (by decide) (by decide) (by decide) (by decide) (by decide)).1
      [65, 66] (by decide)).1,
   ((C5_bytea_decode_cache_and_bytes c5_ok_state c5_ok_res ("4142").data 0
      (by decide) (by decide) (by decide) (by decide) (by decide) (by decide)
      (by decide) (by decide) (by decide) (by decide) (by decide)).1
      [65, 66] (by decide)).2.2.2.1,
   by decide⟩

/-- Claim C6, counterexample: for the bytea value `\x4142`,
`column_bytes` returns the decoded length 2 and `column_blob` the
decoded bytes, but `value_bytes` returns the raw text length 6 and
`value_blob` the raw hex text — the value-handle getters do not match
the column getters on bytea columns. -/
theorem C6_counterexample :
    (my_sqlite3_column_bytes c6_state 0).1 = 2 ∧
    my_sqlite3_value_bytes c6_state 0 0 = 6 ∧
    (my_sqlite3_column_blob c6_state 0).1 = some [65, 66] ∧
    my_sqlite3_value_blob c6_state 0 0
      = some (("\\x4142").data.map Char.toNat) ∧
    (my_sqlite3_column_bytes c6_state 0).1 ≠ my_sqlite3_value_bytes c6_state 0 0 ∧
    (my_sqlite3_column_blob c6_state 0).1 ≠ my_sqlite3_value_blob c6_state 0 0 := by
  decide

/-- Claim C6 (amended): within the owning row, the scalar and text
value-handle getters agree with the column getters on the same
statement and column; the byte-oriented pair does not decode bytea —
`value_bytes` returns the raw `PQgetlength` and `value_blob` the raw
text truncated to 65535 bytes — so they differ from
`column_bytes`/`column_blob` exactly on hex-encoded bytea values. -/
theorem C6_value_getters_match_column_getters
    (st : ColStmt) (r : PgRes) (row col : Nat)
    (hres : st.result = some r) (hcache : st.cachedResult = none)
    (hrow : st.currentRow = (row : Int))
    (hr : row < st.numRows) (hc : col < st.numCols) :
    my_sqlite3_value_int st row col = my_sqlite3_column_int st (col : Int) ∧
    my_sqlite3_value_int64 st row col = my_sqlite3_column_int64 st (col : Int) ∧
    my_sqlite3_value_double st row col = my_sqlite3_column_double st (col : Int) ∧
    (∀ ring, my_sqlite3_value_text st row col
        = (my_sqlite3_column_text st ring (col : Int)).content) ∧
    (PQgetisnull r row col = false →
       my_sqlite3_value_bytes st row col = PQgetlength r row col ∧
       my_sqlite3_value_blob st row col
         = (if PQgetlength r row col = 0 then none
            else some (((PQgetvalue r row col).take 65535).map Char.toNat))) := by
  have hrange : inPgRange st (col : Int) := by
    refine ⟨by omega, by omega, by omega, by omega⟩
  have htn : st.currentRow.toNat = row := by omega
  have hcn : ((col : Int)).toNat = col := by omega
  have hrc : row < st.numRows ∧ col < st.numCols := ⟨hr, hc⟩
  refine ⟨?_, ?_, ?_, ?_, ?_⟩
  · by_cases hnull : PQgetisnull r row col
    · simp [my_sqlite3_value_int, my_sqlite3_column_int, hcache, hres, hrange,
            hrc, htn, hcn, hnull]
    · simp [my_sqlite3_value_int, my_sqlite3_column_int, hcache, hres, hrange,
            hrc, htn, hcn, hnull]
  · by_cases hnull : PQgetisnull r row col
    · simp [my_sqlite3_value_int64, my_sqlite3_column_int64, hcache, hres,
            hrange, hrc, htn, hcn, hnull]
    · simp [my_sqlite3_value_int64, my_sqlite3_column_int64, hcache, hres,
            hrange, hrc, htn, hcn, hnull]
  · by_cases hnull : PQgetisnull r row col
    · simp [my_sqlite3_value_double, my_sqlite3_column_double, hcache, hres,
            hrange, hrc, htn, hcn, hnull]
    · simp [my_sqlite3_value_double, my_sqlite3_column_double, hcache, hres,
            hrange, hrc, htn, hcn, hnull]
  · intro ring
    obtain ⟨h1, h2, h3, h4⟩ := hrange
    have hn1 : ¬ ((col : Int) < 0 ∨ (st.numCols : Int) ≤ (col : Int)) := by
      omega
    have hn2 : ¬ (st.currentRow < 0 ∨ (st.numRows : Int) ≤ st.currentRow) := by
      omega
    by_cases hnull : PQgetisnull r row col
    · simp only [my_sqlite3_value_text, my_sqlite3_column_text, hcache, hres]
      rw [if_neg hn1, if_neg hn2]
      simp [hrc, htn, hcn, hnull]
    · simp only [my_sqlite3_value_text, my_sqlite3_column_text, hcache, hres]
      rw [if_neg hn1, if_neg hn2]
      simp [hrc, htn, hcn, hnull]
  · intro hnull
    constructor
    · simp [my_sqlite3_value_bytes, hres, hrc, hnull]
    · simp [my_sqlite3_value_blob, hres, hrc, hnull]

/-- Claim C6, witness: the scalar agreement and the raw `value_bytes`
result at the concrete bytea statement. -/
theorem C6_witness :
    my_sqlite3_value_int c6_state 0 0 = my_sqlite3_column_int c6_state 0 ∧
    my_sqlite3_value_bytes c6_state 0 0 = PQgetlength c6_res 0 0 :=
  ⟨(C6_value_getters_match_column_getters c6_state c6_res 0 0
      (by decide) (by decide) (by decide) (by decide) (by decide)).1,
   ((C6_value_getters_match_column_getters c6_state c6_res 0 0
      (by decide) (by decide) (by decide) (by decide) (by decide)).2.2.2.2
      (by decide)).1⟩

/-- Claim C10: with an in-flight result (and no query-cache snapshot),
`column_text` returns the NULL pointer for an in-range SQL NULL value
without consuming a ring slot; an out-of-range column or row index
returns an empty string copied into the next slot of the shared 256-slot
ring (slot `ring % 256`, counter bumped); an in-range non-null value is
copied into the next ring slot truncated to at most 16383 bytes. -/
theorem C10_column_text_null_empty_and_truncation
    (st : ColStmt) (r : PgRes) (ring : Nat) (idx : Int)
    (hres : st.result = some r) (hcache : st.cachedResult = none) :
    (idx < 0 ∨ (st.numCols : Int) ≤ idx →
       my_sqlite3_column_text st ring idx
         = ⟨some [], some (ring % 256), ring + 1⟩) ∧
    (st.currentRow < 0 ∨ (st.numRows : Int) ≤ st.currentRow →
       my_sqlite3_column_text st ring idx
         = ⟨some [], some (ring % 256), ring + 1⟩) ∧
    (inPgRange st idx → cell r st.currentRow.toNat idx.toNat = none →
       my_sqlite3_column_text st ring idx = ⟨none, none, ring⟩) ∧
    (∀ v, inPgRange st idx → cell r st.currentRow.toNat idx.toNat = some v →
       my_sqlite3_column_text st ring idx
         = ⟨some (v.take 16383), some (ring % 256), ring + 1⟩ ∧
       (v.take 16383).length ≤ 16383) := by
  refine ⟨?_, ?_, ?_, ?_⟩
  · intro h
    simp only [my_sqlite3_column_text, hcache, hres]
    rw [if_pos h]
  · intro h
    by_cases hidx : idx < 0 ∨ (st.numCols : Int) ≤ idx
    · simp only [my_sqlite3_column_text, hcache, hres]
      rw [if_pos hidx]
    · simp only [my_sqlite3_column_text, hcache, hres]
      rw [if_neg hidx, if_pos h]
  · intro hr hcell
    have hnull : PQgetisnull r st.currentRow.toNat idx.toNat = true := by
      simp [PQgetisnull, hcell]
    obtain ⟨h1, h2, h3, h4⟩ := hr
    have hn1 : ¬ (idx < 0 ∨ (st.numCols : Int) ≤ idx) := by omega
    have hn2 : ¬ (st.currentRow < 0 ∨ (st.numRows : Int) ≤ st.currentRow) := by
      omega
    simp only [my_sqlite3_column_text, hcache, hres]
    rw [if_neg hn1, if_neg hn2]
    simp [hnull]
  · intro v hr hcell
    have hnull : PQgetisnull r st.currentRow.toNat idx.toNat = false := by
      simp [PQgetisnull, hcell]
    have hv : PQgetvalue r st.currentRow.toNat idx.toNat = v := by
      simp [PQgetvalue, hcell]
    obtain ⟨h1, h2, h3, h4⟩ := hr
    have hn1 : ¬ (idx < 0 ∨ (st.numCols : Int) ≤ idx) := by omega
    have hn2 : ¬ (st.currentRow < 0 ∨ (st.numRows : Int) ≤ st.currentRow) := by
      omega
    constructor
    · simp only [my_sqlite3_column_text, hcache, hres]
      rw [if_neg hn1, if_neg hn2]
      simp [hnull, hv]
    · simp [List.length_take]

/-- Claim C10, witness: NULL column 1 yields the NULL pointer and no
ring traffic; out-of-range column 5 yields an empty string from slot
`7 % 256`; column 0 yields the copied text. -/
theorem C10_witness :
    my_sqlite3_column_text c10_state 7 1 = ⟨none, none, 7⟩ ∧
    my_sqlite3_column_text c10_state 7 5 = ⟨some [], some 7, 8⟩ ∧
    my_sqlite3_column_text c10_state 7 0
      = ⟨some (("hello").data.take 16383), some 7, 8⟩ :=
  ⟨(C10_column_text_null_empty_and_truncation c10_state c10_res 7 1
      (by decide) (by decide)).2.2.1 (by decide) (by decide),
   (C10_column_text_null_empty_and_truncation c10_state c10_res 7 5
      (by decide) (by decide)).1 (by decide),
   ((C10_column_text_null_empty_and_truncation c10_state c10_res 7 0
      (by decide) (by decide)).2.2.2 ("hello").data (by decide) (by decide)).1⟩

end PlexPg
